import Mathlib

/-!
Shallow embedding of the Nazara repository (src/main.py and src/bot/echo_bot.py),
a scheduled Telegram greeting bot plus a separate echo bot.

Modelling conventions:
* Python `random.choice(seq)` draws a uniformly random index into `seq`; it is
  modelled by an explicit draw `k : Nat`, the chosen element being
  `seq[k % seq.length]?` (for a uniformly distributed `k`, `k % seq.length` is
  uniform over the indices since every pool length divides any period of `k`).
* The outcome of the single `requests.post` call is a parameter `PostOutcome`:
  either an HTTP response (with status code, body text, and the description the
  raised `HTTPError` would carry) or a network-level failure in which no
  response object is bound.  `response.raise_for_status()` raises exactly for
  4xx/5xx status codes.
* Side effects (the HTTP POST and the `print` calls) are collected in an
  explicit trace of `Action`s, in program order.  The action vocabulary also
  includes the text-generation request described by the spec (section 4.2) so
  that its presence or absence in a run is expressible.
* Python truthiness on optional strings: `None` and `""` are falsy, every other
  string is truthy.
-/

namespace Nazara

/-- Python truthiness of an optional string value (`if x:` with `x` either
`None` or a `str`): `None` and the empty string are falsy. -/
def pyTruthy : Option String → Bool
  | none => false
  | some s => s ≠ ""

/-- Observable side effects of one run: the HTTP POST of the Telegram
send-message call, a printed log line, and (from spec section 4.2) a request to
the text-generation collaborator — included in the vocabulary so that theorems
can state whether a run performs one. -/
inductive Action
  | httpPost (chat_id text : String)
  | log (line : String)
  | generateContent (prompt : String)
  deriving DecidableEq

/-- Does this action request blog content from the text-generation
collaborator? -/
def Action.isGenerateContent : Action → Bool
  | .generateContent _ => true
  | _ => false

/-- Is this action a network call (the HTTP POST)? -/
def Action.isHttpPost : Action → Bool
  | .httpPost _ _ => true
  | _ => false

/-- An HTTP response as seen by `send_telegram_message`: status code, body
text (`response.text`), and the message the `HTTPError` raised by
`raise_for_status` would print (`str(e)`). -/
structure HttpResponse where
  status : Nat
  body : String
  errDesc : String
  deriving DecidableEq

/-- Outcome of the `requests.post` call: a response was received, or the post
itself raised a `RequestException` (so the local `response` is unbound). -/
inductive PostOutcome
  | response (r : HttpResponse)
  | netFailure (errDesc : String)
  deriving DecidableEq

/-- from src/main.py, `send_telegram_message(chat_id, text)`: posts the payload,
calls `raise_for_status`, prints a success line and returns True; on a
`RequestException` prints the error, additionally prints the response body when
a response is bound and its text is non-empty, and returns False.  The result
is the returned boolean together with the trace of actions in program order. -/
def send_telegram_message (post : PostOutcome) (chat_id text : String) :
    Bool × List Action :=
  match post with
  | .response r =>
      if 400 ≤ r.status ∧ r.status < 600 then
        (false,
          [Action.httpPost chat_id text,
           Action.log ("Error sending Telegram message: " ++ r.errDesc)] ++
          (if r.body ≠ "" then [Action.log ("Telegram API Response: " ++ r.body)]
           else []))
      else
        (true,
          [Action.httpPost chat_id text,
           Action.log ("Telegram message sent: " ++ text.take 50 ++ "...")])
  | .netFailure e =>
      (false,
        [Action.httpPost chat_id text,
         Action.log ("Error sending Telegram message: " ++ e)])

/-- morning_greetings from src/main.py. -/
def morning_greetings : List String :=
  ["Good Morning, tech explorers! Rise and shine, it\x27s a new day to build and innovate!",
   "Mornin\x27 geeks! Time to debug your sleep and compile some productivity. Have a great one!",
   "Top of the morning! May your code be bug-free and your coffee strong today.",
   "Wake up, world-changers! The servers of opportunity are online. Good Morning!",
   "Hello, bright minds! Hope your day is as organized as a well-commented codebase. Good Morning!"]

/-- afternoon_greetings from src/main.py. -/
def afternoon_greetings : List String :=
  ["Good Afternoon, everyone! Hope your projects are compiling nicely and your algorithms are efficient.",
   "Midday greetings! Just a friendly reminder to take a break from your screens and recharge.",
   "Afternoon, tech fam! Keep those innovation engines running! Only a few more hours till day\x27s end.",
   "Happy afternoon coding! May your debug sessions be short and your breakthroughs many.",
   "Greetings from the digital realm! Enjoy your afternoon."]

/-- evening_greetings from src/main.py. -/
def evening_greetings : List String :=
  ["Good Evening! Time to wind down and reflect on a day of digital adventures. What did you learn today?",
   "Evening, team! Hope your sprints were successful and your systems stable. Enjoy your night!",
   "As the day winds down, may your tech dreams be filled with clean code and new ideas. Good evening!",
   "Unplug and unwind. Wishing you a peaceful evening after a day of tech triumphs. Good Evening!",
   "The day\x27s code is committed, now it\x27s time to relax. Good Evening, everyone!"]

/-- night_greetings from src/main.py. -/
def night_greetings : List String :=
  ["Good Night, fellow coders! Rest well, and may your dreams be of perfectly optimized solutions.",
   "Sweet dreams to all the tech minds out there! Recharge for another day of innovation.",
   "Time to power down! Wishing you a peaceful night and a fresh start tomorrow.",
   "Sending sleepy bytes your way. Good Night, and happy dreaming of future tech!",
   "The network is quiet. Time for some offline processing. Good Night!"]

/-- Model of Python `random.choice l` with explicit uniform draw `k`: the
element at index `k % l.length`. -/
def randomChoice (l : List String) (k : Nat) : Option String :=
  l[k % l.length]?

/-- from src/main.py, `get_time_based_greeting_message(utc_hour)`: the if/elif
chain over the hour bands; `k` is the draw consumed by `random.choice`. -/
def get_time_based_greeting_message (utc_hour k : Nat) : Option String :=
  if 5 ≤ utc_hour ∧ utc_hour < 12 then randomChoice morning_greetings k
  else if 12 ≤ utc_hour ∧ utc_hour < 17 then randomChoice afternoon_greetings k
  else if 17 ≤ utc_hour ∧ utc_hour < 23 then randomChoice evening_greetings k
  else if 23 ≤ utc_hour ∨ utc_hour < 5 then randomChoice night_greetings k
  else none

/-- The four greeting bands of the day (glossary of the spec). -/
inductive Band
  | morning
  | afternoon
  | evening
  | night
  deriving DecidableEq

/-- Membership of an hour in a band, with the interval bounds of the source:
Morning [5,12), Afternoon [12,17), Evening [17,23), Night [23,24) with [0,5). -/
def bandContains (b : Band) (h : Nat) : Bool :=
  match b with
  | .morning => decide (5 ≤ h ∧ h < 12)
  | .afternoon => decide (12 ≤ h ∧ h < 17)
  | .evening => decide (17 ≤ h ∧ h < 23)
  | .night => decide ((23 ≤ h ∧ h < 24) ∨ h < 5)

/-- The fixed pool of pre-written strings of each band. -/
def bandPool : Band → List String
  | .morning => morning_greetings
  | .afternoon => afternoon_greetings
  | .evening => evening_greetings
  | .night => night_greetings

/-- The band selected by the if/elif chain of
`get_time_based_greeting_message` for a given hour. -/
def bandOf (h : Nat) : Band :=
  if 5 ≤ h ∧ h < 12 then .morning
  else if 12 ≤ h ∧ h < 17 then .afternoon
  else if 17 ≤ h ∧ h < 23 then .evening
  else .night

/-- The holiday table of `get_holiday_greeting` in src/main.py, keyed by
(month, day). -/
def holidays : List ((Nat × Nat) × String) :=
  [((1, 1), "Happy New Year! Wishing you a year of exciting tech breakthroughs and successful projects!"),
   ((2, 14), "Happy Valentine\x27s Day! Sending love and good vibes to all our tech community!"),
   ((3, 17), "Happy St. Patrick\x27s Day! May your code be green and your bugs be few!"),
   ((4, 1), "Happy April Fools\x27 Day! Don\x27t let your code play any tricks on you today!"),
   ((5, 1), "Happy May Day! Celebrating the spirit of innovation and collaboration in tech!"),
   ((7, 4), "Happy Independence Day! May your freedoms be as strong as your Wi-Fi signal! (For US)"),
   ((9, 5), "Happy Labor Day! Taking a break from the grind to appreciate all tech workers! (Example - adjust for your region)"),
   ((10, 31), "Happy Halloween! May your night be spooky and your data secure!"),
   ((11, 11), "Happy Veterans Day! Honoring those who served, building a better future through tech! (For US)"),
   ((12, 25), "Merry Christmas! May your holidays be filled with joy, and your gadgets fully charged!"),
   ((12, 31), "Happy New Year\x27s Eve! Reflect on a year of tech advancements and get ready for more!")]

/-- from src/main.py, `get_holiday_greeting(today)`: exact dictionary lookup of
`(today.month, today.day)` in the holiday table, `None` when absent. -/
def get_holiday_greeting (month day : Nat) : Option String :=
  (holidays.find? (fun p => p.1 == (month, day))).map Prod.snd

/-- The `else` block of `run_bot` in src/main.py: compute the time-based
greeting and send it when truthy. -/
def time_greeting_step (utc_hour k : Nat) (chat_id : String)
    (post : PostOutcome) : List Action :=
  match get_time_based_greeting_message utc_hour k with
  | some m => if m = "" then [] else (send_telegram_message post chat_id m).2
  | none => []

/-- from src/main.py, `run_bot()`: check the holiday greeting first and send it
when truthy; otherwise compute the time-based greeting and send it when truthy.
Returns the trace of actions of the run.  The date and hour (from
`datetime.now(pytz.utc)`) and the random draw `k` are explicit inputs. -/
def run_bot (month day utc_hour k : Nat) (chat_id : String)
    (post : PostOutcome) : List Action :=
  match get_holiday_greeting month day with
  | some g =>
      if g = "" then time_greeting_step utc_hour k chat_id post
      else (send_telegram_message post chat_id g).2
  | none => time_greeting_step utc_hour k chat_id post

/-- Result of running a whole program: early termination with an exit code and
the lines printed before exiting, or a completed single pass with its action
trace, or (echo bot only) entry into the external long-polling loop. -/
inductive ProgramResult
  | exited (code : Nat) (printed : List String)
  | ran (actions : List Action)
  | polling
  deriving DecidableEq

/-- The texts of the network sends in a trace. -/
def sentTexts (tr : List Action) : List String :=
  tr.filterMap fun a =>
    match a with
    | .httpPost _ t => some t
    | _ => none

/-- The network actions performed by a program result. -/
def resultNetworkCalls : ProgramResult → List Action
  | .exited _ _ => []
  | .ran acts => acts.filter Action.isHttpPost
  | .polling => []

/-- from src/main.py, module level plus the `__main__` guard: read the two
environment values, and if `not all([TELEGRAM_BOT_TOKEN, TELEGRAM_CHAT_ID])`
print the error message and `exit(1)`; otherwise run `run_bot()`. -/
def main_program (token chat_id : Option String) (month day utc_hour k : Nat)
    (post : PostOutcome) : ProgramResult :=
  if pyTruthy token && pyTruthy chat_id then
    .ran (run_bot month day utc_hour k (chat_id.getD "") post)
  else
    .exited 1
      ["Error: Missing one or more environment variables. Please check your GitHub Secrets."]

/-- A reply produced by an echo-bot handler: `reply_html` or `reply_text`. -/
inductive Reply
  | html (s : String)
  | plain (s : String)
  deriving DecidableEq

/-- from src/bot/echo_bot.py, `echo`: the reply text is the received text. -/
def echo (message_text : String) : String := message_text

/-- An incoming Telegram text message as the echo bot's filters see it:
its text, and whether it carries a bot-command entity at offset 0
(`filters.COMMAND`). -/
structure TgUpdate where
  text : String
  is_command : Bool
  deriving DecidableEq

/-- from src/bot/echo_bot.py, `main`'s handler registration: a `/start`
command answers with the HTML greeting, a `/help` command with the help line,
any other command has no handler, and every non-command text message is
dispatched to `echo`. -/
def dispatch_update (user_mention : String) (u : TgUpdate) : Option Reply :=
  if u.is_command then
    if u.text.startsWith "/start" then
      some (.html ("Hi " ++ user_mention ++ "! I\x27m an echo bot. Send me anything!"))
    else if u.text.startsWith "/help" then
      some (.plain "Just send me any text, and I\x27ll echo it back!")
    else none
  else some (.plain (echo u.text))

/-- from src/bot/echo_bot.py, `main`: if the token environment value is falsy,
log the error and `exit(1)`; otherwise build the application and enter the
long-polling loop (external framework, modelled per-update by
`dispatch_update`). -/
def echo_main (token : Option String) : ProgramResult :=
  if pyTruthy token then .polling
  else .exited 1
    ["TELEGRAM_BOT_TOKEN environment variable is not set. Exiting."]

/-- Does this outcome make `send_telegram_message` take its except branch: a
non-success HTTP status (one that `raise_for_status` raises on) or a
network-level failure? -/
def isFailure : PostOutcome → Bool
  | .response r => decide (400 ≤ r.status ∧ r.status < 600)
  | .netFailure _ => true

/-- The description the raised `RequestException` prints as `str(e)`. -/
def errDescOf : PostOutcome → String
  | .response r => r.errDesc
  | .netFailure e => e

/-! Helper lemmas shared by the claim theorems. -/

/-- A draw from a non-empty list always yields an element of the list. -/
theorem randomChoice_mem (l : List String) (k : Nat) (hl : l ≠ []) :
    ∃ g, randomChoice l k = some g ∧ g ∈ l := by
  have hlen : 0 < l.length := List.length_pos.mpr hl
  have hk : k % l.length < l.length := Nat.mod_lt _ hlen
  refine ⟨l.get ⟨k % l.length, hk⟩, ?_, List.get_mem _ _ _⟩
  simp [randomChoice, List.getElem?_eq_getElem hk]

/-- Each band's pool is non-empty. -/
theorem bandPool_ne_nil (b : Band) : bandPool b ≠ [] := by
  cases b <;> simp [bandPool, morning_greetings, afternoon_greetings,
    evening_greetings, night_greetings]

/-- Each band's pool has exactly five messages. -/
theorem bandPool_length (b : Band) : (bandPool b).length = 5 := by
  cases b <;> rfl

/-- The if/elif chain of the selector draws from the pool of `bandOf h`. -/
theorem selector_eq_bandPool (h k : Nat) :
    get_time_based_greeting_message h k = randomChoice (bandPool (bandOf h)) k := by
  unfold get_time_based_greeting_message bandOf
  split_ifs with h1 h2 h3 h4 <;> simp [bandPool]
  omega

/-- For an hour below 24, `bandOf` lands in a band containing that hour. -/
theorem bandContains_bandOf (h : Nat) (hh : h < 24) :
    bandContains (bandOf h) h = true := by
  unfold bandOf
  split_ifs with h1 h2 h3 <;> simp [bandContains] <;> omega

/-- For an hour below 24, no band other than `bandOf h` contains it. -/
theorem bandContains_unique (h : Nat) (b : Band) (hh : h < 24)
    (hb : bandContains b h = true) : b = bandOf h := by
  cases b <;> unfold bandOf <;> simp [bandContains] at hb ⊢ <;>
    split_ifs <;> first | rfl | omega

/-- The holiday table has pairwise-distinct (month, day) keys. -/
theorem holidays_keys_nodup : (holidays.map Prod.fst).Nodup := by decide

/-- Every greeting in the holiday table is a non-empty (hence truthy) string. -/
theorem holidays_values_ne_empty : ∀ p ∈ holidays, p.2 ≠ "" := by decide

/-- Exact-match characterisation of the dictionary lookup: the lookup yields g
precisely when ((month, day), g) is an entry of the table. -/
theorem holiday_lookup_iff (month day : Nat) (g : String) :
    get_holiday_greeting month day = some g ↔ ((month, day), g) ∈ holidays := by
  constructor
  · intro hg
    unfold get_holiday_greeting at hg
    obtain ⟨p, hfind, hsnd⟩ := Option.map_eq_some'.mp hg
    have hp : p.1 = (month, day) := by simpa using List.find?_some hfind
    have hmem := List.mem_of_find?_eq_some hfind
    rw [← hp, ← hsnd]
    exact hmem
  · intro hmem
    unfold get_holiday_greeting
    cases hfind : holidays.find? (fun p => p.1 == (month, day)) with
    | none =>
        have := List.find?_eq_none.mp hfind _ hmem
        simp at this
    | some p =>
        have hp : p.1 = (month, day) := by simpa using List.find?_some hfind
        have hpmem := List.mem_of_find?_eq_some hfind
        have hpe : p = ((month, day), g) :=
          List.inj_on_of_nodup_map holidays_keys_nodup hpmem hmem (by simp [hp])
        simp [hpe]

/-- The lookup is absent precisely when (month, day) is not a key of the
table. -/
theorem holiday_lookup_none_iff (month day : Nat) :
    get_holiday_greeting month day = none ↔
      (month, day) ∉ holidays.map Prod.fst := by
  unfold get_holiday_greeting
  rw [Option.map_eq_none', List.find?_eq_none]
  simp only [beq_iff_eq, List.mem_map, not_exists, not_and]

/-- Whatever the network outcome, one send attempt posts exactly its text. -/
theorem sentTexts_send (post : PostOutcome) (chat t : String) :
    sentTexts (send_telegram_message post chat t).2 = [t] := by
  cases post with
  | response r =>
      by_cases h4 : 400 ≤ r.status ∧ r.status < 600
      · by_cases hb : r.body = "" <;>
          simp [send_telegram_message, h4, hb, sentTexts]
      · simp [send_telegram_message, h4, sentTexts]
  | netFailure e => simp [send_telegram_message, sentTexts]

/-- When the holiday lookup yields a greeting, the run is exactly the holiday
send (the greeting is truthy since all table values are non-empty). -/
theorem run_bot_holiday_case (month day h k : Nat) (chat : String)
    (post : PostOutcome) (g : String)
    (hg : get_holiday_greeting month day = some g) :
    run_bot month day h k chat post = (send_telegram_message post chat g).2 := by
  have hne : g ≠ "" :=
    holidays_values_ne_empty _ ((holiday_lookup_iff month day g).mp hg)
  unfold run_bot
  rw [hg]
  simp [hne]

/-- The time-based step sends at most one message. -/
theorem sentTexts_time_step_le_one (h k : Nat) (chat : String)
    (post : PostOutcome) :
    (sentTexts (time_greeting_step h k chat post)).length ≤ 1 := by
  unfold time_greeting_step
  cases get_time_based_greeting_message h k with
  | none => simp [sentTexts]
  | some m =>
      by_cases hm : m = ""
      · simp [hm, sentTexts]
      · simp [hm, sentTexts_send]

/-- C1: for every hour h in [0,23], the time-based greeting selector assigns h
to exactly one band of the partition Morning [5,12), Afternoon [12,17),
Evening [17,23), Night [23,24)∪[0,5), and returns a greeting of that band; the
bands are pairwise disjoint and together cover all 24 hours. -/
theorem greeting_bands_partition (h : Nat) (hh : h < 24) :
    (∃! b : Band, bandContains b h = true) ∧
    ∀ k, ∃ g, get_time_based_greeting_message h k = some g ∧
      ∀ b, bandContains b h = true → g ∈ bandPool b := by
  refine ⟨⟨bandOf h, bandContains_bandOf h hh,
    fun b hb => bandContains_unique h b hh hb⟩, fun k => ?_⟩
  obtain ⟨g, hg, hmem⟩ := randomChoice_mem (bandPool (bandOf h)) k (bandPool_ne_nil _)
  refine ⟨g, by rw [selector_eq_bandPool]; exact hg, fun b hb => ?_⟩
  rw [bandContains_unique h b hh hb]
  exact hmem

/-- Witness for C1 at hour 9. -/
theorem greeting_bands_partition_witness :
    9 < 24 ∧ ((∃! b : Band, bandContains b 9 = true) ∧
      ∀ k, ∃ g, get_time_based_greeting_message 9 k = some g ∧
        ∀ b, bandContains b 9 = true → g ∈ bandPool b) :=
  ⟨by decide, greeting_bands_partition 9 (by decide)⟩

/-- C7: for every hour h in [0,23], the greeting returned by the selector is
drawn from the fixed pool of five pre-written strings of h's band — the unique
band containing h — chosen uniformly at random: that band's pool has five
pairwise-distinct messages and the selection is the entry at index k mod 5 of
the uniform draw k, so each message of the pool is selected for exactly one
residue class of the draw. -/
theorem greeting_from_fixed_pool_uniform (h : Nat) (hh : h < 24) :
    ∃ b : Band, bandContains b h = true ∧
      (∀ b' : Band, bandContains b' h = true → b' = b) ∧
      (bandPool b).length = 5 ∧ (bandPool b).Nodup ∧
      ∀ k, get_time_based_greeting_message h k = (bandPool b)[k % 5]? := by
  refine ⟨bandOf h, bandContains_bandOf h hh,
    fun b' hb' => bandContains_unique h b' hh hb', bandPool_length _, ?_, fun k => ?_⟩
  · cases bandOf h <;> decide
  · rw [selector_eq_bandPool]
    simp [randomChoice, bandPool_length]

/-- Witness for C7 at hour 14. -/
theorem greeting_from_fixed_pool_uniform_witness :
    14 < 24 ∧ ∃ b : Band, bandContains b 14 = true ∧
      (∀ b' : Band, bandContains b' 14 = true → b' = b) ∧
      (bandPool b).length = 5 ∧ (bandPool b).Nodup ∧
      ∀ k, get_time_based_greeting_message 14 k = (bandPool b)[k % 5]? :=
  ⟨by decide, greeting_from_fixed_pool_uniform 14 (by decide)⟩

/-- C9: for every hour h in [0,23] the selector returns a greeting and never
the absent result: the final `return None` branch is unreachable for any valid
hour, so this variant has no quiet-hours suppression. -/
theorem selector_never_none (h k : Nat) (_hh : h < 24) :
    get_time_based_greeting_message h k ≠ none := by
  rw [selector_eq_bandPool]
  obtain ⟨g, hg, -⟩ := randomChoice_mem _ k (bandPool_ne_nil (bandOf h))
  simp [hg]

/-- Witness for C9 at hour 23 (the quiet-hours candidate) and draw 0. -/
theorem selector_never_none_witness :
    23 < 24 ∧ get_time_based_greeting_message 23 0 ≠ none :=
  ⟨by decide, selector_never_none 23 0 (by decide)⟩

/-- C2: holiday lookup is exact match on (month, day) — the lookup yields the
configured string precisely when the pair is a key of the table and nothing
otherwise — and a found holiday greeting is what the run sends, regardless of
the hour; in particular (12,25) at hour 14 sends the configured Christmas
string and not an Afternoon greeting. -/
theorem holiday_exact_match_and_precedence (month day : Nat) :
    (∀ g, get_holiday_greeting month day = some g ↔ ((month, day), g) ∈ holidays) ∧
    (get_holiday_greeting month day = none ↔
      (month, day) ∉ holidays.map Prod.fst) ∧
    (∀ g, get_holiday_greeting month day = some g →
      ∀ h k chat post, sentTexts (run_bot month day h k chat post) = [g]) ∧
    (∀ k chat post, sentTexts (run_bot 12 25 14 k chat post) =
      ["Merry Christmas! May your holidays be filled with joy, and your gadgets fully charged!"]) := by
  refine ⟨fun g => holiday_lookup_iff month day g,
    holiday_lookup_none_iff month day, fun g hg h k chat post => ?_, fun k chat post => ?_⟩
  · rw [run_bot_holiday_case month day h k chat post g hg, sentTexts_send]
  · rw [run_bot_holiday_case 12 25 14 k chat post
      "Merry Christmas! May your holidays be filled with joy, and your gadgets fully charged!"
      (by decide), sentTexts_send]

/-- Witness for C2: the (12,25) hour-14 scenario evaluated at a concrete draw,
chat id and network outcome. -/
theorem holiday_exact_match_and_precedence_witness :
    sentTexts (run_bot 12 25 14 0 "chat" (PostOutcome.netFailure "down")) =
      ["Merry Christmas! May your holidays be filled with joy, and your gadgets fully charged!"] :=
  (holiday_exact_match_and_precedence 12 25).2.2.2 0 "chat"
    (PostOutcome.netFailure "down")

/-- C10: each invocation of run_bot sends at most one message, and when a
holiday greeting is found the whole run is exactly the holiday send — the
time-based branch is not taken, so the time-based greeting is neither computed
nor sent. -/
theorem run_sends_at_most_one (month day h k : Nat) (chat : String)
    (post : PostOutcome) :
    (sentTexts (run_bot month day h k chat post)).length ≤ 1 ∧
    ∀ g, get_holiday_greeting month day = some g →
      run_bot month day h k chat post = (send_telegram_message post chat g).2 := by
  constructor
  · cases hg : get_holiday_greeting month day with
    | some g =>
        rw [run_bot_holiday_case month day h k chat post g hg, sentTexts_send]
        simp
    | none =>
        unfold run_bot
        rw [hg]
        exact sentTexts_time_step_le_one h k chat post
  · exact fun g hg => run_bot_holiday_case month day h k chat post g hg

/-- Witness for C10: on Christmas the run is exactly the holiday send. -/
theorem run_sends_at_most_one_witness :
    run_bot 12 25 14 0 "chat" (PostOutcome.netFailure "down") =
      (send_telegram_message (PostOutcome.netFailure "down") "chat"
        "Merry Christmas! May your holidays be filled with joy, and your gadgets fully charged!").2 :=
  (run_sends_at_most_one 12 25 14 0 "chat" (PostOutcome.netFailure "down")).2 _
    (by decide)

/-- A send attempt never performs a text-generation request. -/
theorem send_no_generate (post : PostOutcome) (chat t : String) :
    ((send_telegram_message post chat t).2).any Action.isGenerateContent = false := by
  cases post with
  | response r =>
      by_cases h4 : 400 ≤ r.status ∧ r.status < 600
      · by_cases hb : r.body = "" <;>
          simp [send_telegram_message, h4, hb, Action.isGenerateContent]
      · simp [send_telegram_message, h4, Action.isGenerateContent]
  | netFailure e => simp [send_telegram_message, Action.isGenerateContent]

/-- C3 counterexample: the invocation on 3 March at hour 14 (no holiday) with
draw 0 performs no blog-content request at all, refuting that every invocation
requests blog content after the greeting step. -/
theorem run_requests_no_blog_counterexample :
    (run_bot 3 3 14 0 "chat" (PostOutcome.response ⟨200, "ok", ""⟩)).any
      Action.isGenerateContent = false := by decide

/-- C3 amended: no invocation of the run orchestrator requests blog content
from the text-generation collaborator — run_bot consists only of the greeting
step; there is no blog-content step in this code. -/
theorem run_requests_no_blog_amended (month day h k : Nat) (chat : String)
    (post : PostOutcome) :
    (run_bot month day h k chat post).any Action.isGenerateContent = false := by
  have htime : (time_greeting_step h k chat post).any
      Action.isGenerateContent = false := by
    unfold time_greeting_step
    cases get_time_based_greeting_message h k with
    | none => rfl
    | some m =>
        by_cases hm : m = ""
        · simp [hm]
        · simp [hm, send_no_generate]
  unfold run_bot
  cases get_holiday_greeting month day with
  | some g =>
      by_cases hg : g = ""
      · simp [hg, htime]
      · simp [hg, send_no_generate]
  | none => simpa using htime

/-- C4 counterexample: with empty message text the send operation still issues
the network call — `send_telegram_message` performs no emptiness check before
posting. -/
theorem notifier_empty_text_counterexample :
    Action.httpPost "chat" "" ∈
      (send_telegram_message (PostOutcome.response ⟨200, "", "ok"⟩) "chat" "").2 := by
  decide

/-- C4 amended: the Notifier itself performs no emptiness check, but every
text the program actually sends is non-empty — run_bot only passes truthy
greeting strings to the send operation. -/
theorem run_never_sends_empty (month day h k : Nat) (chat : String)
    (post : PostOutcome) :
    ∀ t ∈ sentTexts (run_bot month day h k chat post), t ≠ "" := by
  have htime : ∀ t ∈ sentTexts (time_greeting_step h k chat post), t ≠ "" := by
    unfold time_greeting_step
    cases get_time_based_greeting_message h k with
    | none => simp [sentTexts]
    | some m =>
        by_cases hm : m = ""
        · simp [hm, sentTexts]
        · simp [hm, sentTexts_send]
  unfold run_bot
  cases get_holiday_greeting month day with
  | some g =>
      by_cases hg : g = ""
      · simpa [hg] using htime
      · simp [hg, sentTexts_send]
  | none => simpa using htime

/-- Witness for C4's amended theorem on the Christmas run. -/
theorem run_never_sends_empty_witness :
    ("Merry Christmas! May your holidays be filled with joy, and your gadgets fully charged!" : String) ≠ "" :=
  run_never_sends_empty 12 25 14 0 "chat" (PostOutcome.netFailure "down") _
    (by decide)

/-- C5: on a non-success HTTP status or a network failure, the send operation
returns the failure value False to its caller, issues exactly one request (no
retry), logs the exception detail, and — when a response with a non-empty body
is bound — logs the response body.  No exception escapes: the operation is a
total function into a result value. -/
theorem notifier_failure_behaviour (post : PostOutcome) (chat text : String)
    (hfail : isFailure post = true) :
    (send_telegram_message post chat text).1 = false ∧
    ((send_telegram_message post chat text).2).countP Action.isHttpPost = 1 ∧
    Action.log ("Error sending Telegram message: " ++ errDescOf post) ∈
      (send_telegram_message post chat text).2 ∧
    (∀ r : HttpResponse, post = .response r → r.body ≠ "" →
      Action.log ("Telegram API Response: " ++ r.body) ∈
        (send_telegram_message post chat text).2) := by
  cases post with
  | response r =>
      have h4 : 400 ≤ r.status ∧ r.status < 600 := by
        simpa [isFailure] using hfail
      refine ⟨?_, ?_, ?_, ?_⟩
      · simp [send_telegram_message, h4]
      · by_cases hb : r.body = "" <;>
          simp [send_telegram_message, h4, hb, List.countP_cons,
            Action.isHttpPost]
      · by_cases hb : r.body = "" <;>
          simp [send_telegram_message, h4, hb, errDescOf]
      · rintro r' ⟨rfl⟩ hb
        simp [send_telegram_message, h4, hb]
  | netFailure e =>
      refine ⟨rfl, ?_, ?_, ?_⟩
      · simp [send_telegram_message, List.countP_cons, Action.isHttpPost]
      · simp [send_telegram_message, errDescOf]
      · rintro r ⟨⟩

/-- Witness for C5: an HTTP 403 with a response body returns failure. -/
theorem notifier_failure_behaviour_witness :
    (send_telegram_message
      (PostOutcome.response ⟨403, "Forbidden: bot was blocked by the user", "403 Client Error"⟩)
      "chat" "hello").1 = false :=
  (notifier_failure_behaviour
    (PostOutcome.response ⟨403, "Forbidden: bot was blocked by the user", "403 Client Error"⟩)
    "chat" "hello" (by decide)).1

/-- C6: if the bot token or the destination chat id is absent at startup, the
program prints the descriptive message and terminates with exit code 1 before
performing any network call; the echo bot does the same for its token.  No
partial operation is attempted. -/
theorem missing_config_exits (token chat_id : Option String)
    (month day h k : Nat) (post : PostOutcome)
    (habs : token = none ∨ chat_id = none) :
    main_program token chat_id month day h k post =
      .exited 1 ["Error: Missing one or more environment variables. Please check your GitHub Secrets."] ∧
    resultNetworkCalls (main_program token chat_id month day h k post) = [] ∧
    echo_main none =
      .exited 1 ["TELEGRAM_BOT_TOKEN environment variable is not set. Exiting."] := by
  have hfalse : (pyTruthy token && pyTruthy chat_id) = false := by
    rcases habs with rfl | rfl
    · simp [pyTruthy]
    · simp [pyTruthy]
  refine ⟨?_, ?_, rfl⟩ <;> simp [main_program, hfalse, resultNetworkCalls]

/-- Witness for C6: a missing token with the chat id present. -/
theorem missing_config_exits_witness :
    main_program none (some "123456") 12 25 14 0 (PostOutcome.netFailure "down") =
      .exited 1 ["Error: Missing one or more environment variables. Please check your GitHub Secrets."] :=
  (missing_config_exits none (some "123456") 12 25 14 0
    (PostOutcome.netFailure "down") (Or.inl rfl)).1

/-- C8: for every incoming non-command text message, the echo bot replies with
exactly the text of the received message. -/
theorem echo_replies_same_text (mention : String) (u : TgUpdate)
    (hnc : u.is_command = false) :
    dispatch_update mention u = some (.plain u.text) := by
  simp [dispatch_update, hnc, echo]

/-- Witness for C8 on a concrete message. -/
theorem echo_replies_same_text_witness :
    dispatch_update "user" ⟨"hello world", false⟩ =
      some (.plain "hello world") :=
  echo_replies_same_text "user" ⟨"hello world", false⟩ rfl

end Nazara
